import Mathlib

/-!
Verification development for the ampersend-sdk payment-authorization core.

The Python sources are shallowly embedded:
* `compute_user_op_hash` / `verify_prepare_response` follow
  `ampersend_sdk/ampersend/management.py`,
* the v2 ↔ v1 protocol adapter follows `ampersend_sdk/x402/v2_adapter.py`,
* the payment-interception transport follows
  `ampersend_sdk/x402/http/transport.py`.

Machine byte strings are `List Nat` (each element < 256 by construction),
arbitrary-precision Python integers are `Int`/`Nat`, fallible code returns
`Except`.  The keccak hash function, the chain-id registry, the
token-metadata registry, the treasurer and the JSON/base64 codecs are
external collaborators of the repository; they enter as explicit parameters.
-/

namespace Ampersend

/-- Byte strings, one `Nat` (< 256) per byte. -/
abbrev Bytes := List Nat

/-- Big-endian encoding of `n` into exactly `len` bytes (Python
`int.to_bytes(len, "big")` on an in-range value; values ≥ 256^len wrap,
callers guard the range as Python raises `OverflowError` there). -/
def natToBeBytes : Nat → Nat → Bytes
  | 0, _ => []
  | k + 1, n => natToBeBytes k (n / 256) ++ [n % 256]

/-- Python `int.to_bytes(len, "big")`: rejects negative and out-of-range
values (`OverflowError`), otherwise big-endian bytes. -/
def intToBytesBE (len : Nat) (v : Int) : Except Unit Bytes :=
  if 0 ≤ v ∧ v < (256 : Int) ^ len then .ok (natToBeBytes len v.toNat) else .error ()

/-- Value of one hexadecimal digit character, if any. -/
def hexVal (c : Char) : Option Nat :=
  if '0' ≤ c ∧ c ≤ '9' then some (c.toNat - '0'.toNat)
  else if 'a' ≤ c ∧ c ≤ 'f' then some (c.toNat - 'a'.toNat + 10)
  else if 'A' ≤ c ∧ c ≤ 'F' then some (c.toNat - 'A'.toNat + 10)
  else none

def parseHexNatAux : List Char → Nat → Option Nat
  | [], acc => some acc
  | c :: cs, acc =>
    match hexVal c with
    | none => none
    | some d => parseHexNatAux cs (acc * 16 + d)

/-- Parse a non-empty string of hex digits (canonical form of Python
`int(s, 16)`). -/
def parseHexNat (cs : List Char) : Option Nat :=
  match cs with
  | [] => none
  | _ => parseHexNatAux cs 0

def parseDecNatAux : List Char → Nat → Option Nat
  | [], acc => some acc
  | c :: cs, acc =>
    if '0' ≤ c ∧ c ≤ '9' then parseDecNatAux cs (acc * 10 + (c.toNat - '0'.toNat))
    else none

def parseDecNat (cs : List Char) : Option Nat :=
  match cs with
  | [] => none
  | _ => parseDecNatAux cs 0

/-- Parse a decimal integer with optional leading minus sign (canonical
form of Python `int(s)`). -/
def parseDecInt (cs : List Char) : Option Int :=
  match cs with
  | '-' :: rest => (parseDecNat rest).map (fun n => -(n : Int))
  | _ => (parseDecNat cs).map (fun n => (n : Int))

def hexPairsToBytes : List Char → Option Bytes
  | [] => some []
  | [_] => none
  | c1 :: c2 :: rest => do
    let h ← hexVal c1
    let l ← hexVal c2
    let tl ← hexPairsToBytes rest
    pure ((h * 16 + l) :: tl)

/-- Python `bytes.fromhex` on a canonical even-length hex string. -/
def bytesFromHex (s : String) : Except Unit Bytes :=
  match hexPairsToBytes s.toList with
  | some b => .ok b
  | none => .error ()

/-- Python `s.startswith("0x")`. -/
def startsWith0x (s : String) : Bool :=
  match s.toList with
  | '0' :: 'x' :: _ => true
  | _ => false

/-- Strip a leading `"0x"` if present (Python `removeprefix("0x")`). -/
def dropHexMarker (s : String) : String :=
  if startsWith0x s then s.drop 2 else s

/-- ASCII lowercasing of one character. -/
def ascii_lower (c : Char) : Char :=
  if 65 ≤ c.toNat ∧ c.toNat ≤ 90 then Char.ofNat (c.toNat + 32) else c

/-- Python `str.lower()` (on the ASCII range the code works with). -/
def str_lower (s : String) : String :=
  String.mk (s.toList.map ascii_lower)

/-- Python `str.zfill`: left-pad with `'0'` to at least `n` characters. -/
def zfill (n : Nat) (s : String) : String :=
  if s.length < n then String.mk (List.replicate (n - s.length) '0') ++ s else s

/-- Lowercase hex rendering of a byte string (Python `bytes.hex()`). -/
def bytesToHex (b : Bytes) : String :=
  String.mk (List.flatten (b.map fun x => [Nat.digitChar (x / 16 % 16), Nat.digitChar (x % 16)]))

/-! ### The user-operation value space

A Python integer-typed field of the user-op dict is either a native int, a
string, or absent/null/other (the code treats absent, `None` and non-int
non-str values identically: they all resolve to `0`). -/

inductive IntField where
  | vInt (n : Int)
  | vStr (s : String)
  | vNone
  deriving DecidableEq

/-- The `unsigned_user_op` dict of `management.py`.  String-valued entries
are `Option String`; `none` stands for an absent key or a JSON null (the
code treats both identically through falsiness / `.get` defaults). -/
structure UserOp where
  sender : Option String := none
  nonce : IntField := .vNone
  factory : Option String := none
  factoryData : Option String := none
  callData : Option String := none
  callGasLimit : IntField := .vNone
  verificationGasLimit : IntField := .vNone
  preVerificationGas : IntField := .vNone
  maxFeePerGas : IntField := .vNone
  maxPriorityFeePerGas : IntField := .vNone
  paymaster : Option String := none
  paymasterVerificationGasLimit : IntField := .vNone
  paymasterPostOpGasLimit : IntField := .vNone
  paymasterData : Option String := none
  deriving DecidableEq

/-- `to_int` of `_compute_user_op_hash`: native ints pass through, strings
are parsed as hex when `"0x"`-marked and as decimal otherwise (a parse
failure is Python's `ValueError`), anything else resolves to `0`. -/
def to_int : IntField → Except Unit Int
  | .vInt n => .ok n
  | .vStr s =>
    if startsWith0x s then
      match parseHexNat (s.drop 2).toList with
      | some n => .ok (n : Int)
      | none => .error ()
    else
      match parseDecInt s.toList with
      | some v => .ok v
      | none => .error ()
  | .vNone => .ok 0

/-- `to_bytes` of `_compute_user_op_hash`: falsy values give `b""`,
otherwise hex-decode after stripping `"0x"`. -/
def to_bytes (hex_str : Option String) : Except Unit Bytes :=
  match hex_str with
  | none => .ok []
  | some s => if s = "" then .ok [] else bytesFromHex (dropHexMarker s)

/-- `to_address` of `_compute_user_op_hash`: falsy values give 20 zero
bytes, otherwise hex-decode the `"0x"`-stripped string left-padded to 40
hex digits. -/
def to_address (addr : Option String) : Except Unit Bytes :=
  match addr with
  | none => .ok (List.replicate 20 0)
  | some s =>
    if s = "" then .ok (List.replicate 20 0)
    else bytesFromHex (zfill 40 (dropHexMarker s))

/-- `init_code = to_address(factory) + to_bytes(factory_data)` when the
factory field is truthy, else `b""`. -/
def init_code_of (user_op : UserOp) : Except Unit Bytes :=
  match user_op.factory with
  | none => .ok []
  | some f =>
    if f = "" then .ok []
    else do
      let fa ← to_address (some f)
      let fd ← to_bytes user_op.factoryData
      pure (fa ++ fd)

/-- `paymaster_and_data`: paymaster address ‖ 16-byte paymaster gas limits
‖ paymaster data when the paymaster field is truthy, else `b""`. -/
def paymaster_and_data_of (paymaster : Option String)
    (paymaster_verification_gas_limit paymaster_post_op_gas_limit : Int)
    (paymaster_data : Bytes) : Except Unit Bytes :=
  match paymaster with
  | none => .ok []
  | some p =>
    if p = "" then .ok []
    else do
      let pa ← to_address (some p)
      let pv ← intToBytesBE 16 paymaster_verification_gas_limit
      let pp ← intToBytesBE 16 paymaster_post_op_gas_limit
      pure (pa ++ pv ++ pp ++ paymaster_data)

/-- Python `(hi << 128) | lo` on arbitrary-precision ints.  When either
operand is negative the Python result is negative and the subsequent
`to_bytes` call raises; `-1` stands in for that (unrepresented) negative
value, which `intToBytesBE` rejects just as Python does. -/
def pack128 (hi lo : Int) : Int :=
  if hi < 0 ∨ lo < 0 then -1 else ((hi.toNat <<< 128 ||| lo.toNat : Nat) : Int)

/-- eth_abi encoding of a `uint256` argument: one 32-byte big-endian word,
out-of-range values rejected. -/
def wordOfUint256 (v : Int) : Except Unit Bytes :=
  intToBytesBE 32 v

/-- eth_abi encoding of an `address` argument given as 20 raw bytes:
12 zero bytes of left padding. -/
def wordOfAddress (b : Bytes) : Except Unit Bytes :=
  if b.length = 20 then .ok (List.replicate 12 0 ++ b) else .error ()

/-- eth_abi encoding of a `bytes32` argument: the 32 bytes themselves. -/
def wordOfBytes32 (b : Bytes) : Except Unit Bytes :=
  if b.length = 32 then .ok b else .error ()

/-- ERC-4337 EntryPoint v0.7 address constant of `management.py`. -/
def ENTRYPOINT_V07_ADDRESS : String := "0x0000000071727De22E5E9d8BAf0edAc6f37da032"

/-- `AmpersendManagementClient._compute_user_op_hash`, parametric in the
keccak hash function (an external primitive).  Returns the final hash as a
`"0x"`-marked lowercase hex string. -/
def compute_user_op_hash (keccak : Bytes → Bytes) (chain_id : Int)
    (user_op : UserOp) : Except Unit String := do
  let sender ← to_address user_op.sender
  let nonce ← to_int user_op.nonce
  let call_data ← to_bytes user_op.callData
  let call_gas_limit ← to_int user_op.callGasLimit
  let verification_gas_limit ← to_int user_op.verificationGasLimit
  let pre_verification_gas ← to_int user_op.preVerificationGas
  let max_fee_per_gas ← to_int user_op.maxFeePerGas
  let max_priority_fee_per_gas ← to_int user_op.maxPriorityFeePerGas
  let paymaster_verification_gas_limit ← to_int user_op.paymasterVerificationGasLimit
  let paymaster_post_op_gas_limit ← to_int user_op.paymasterPostOpGasLimit
  let paymaster_data ← to_bytes user_op.paymasterData
  let init_code ← init_code_of user_op
  let paymaster_and_data ← paymaster_and_data_of user_op.paymaster
    paymaster_verification_gas_limit paymaster_post_op_gas_limit paymaster_data
  let account_gas_limits := pack128 verification_gas_limit call_gas_limit
  let gas_fees := pack128 max_priority_fee_per_gas max_fee_per_gas
  let w1 ← wordOfAddress sender
  let w2 ← wordOfUint256 nonce
  let w3 ← wordOfBytes32 (keccak init_code)
  let w4 ← wordOfBytes32 (keccak call_data)
  let w5 ← intToBytesBE 32 account_gas_limits
  let w6 ← wordOfUint256 pre_verification_gas
  let w7 ← intToBytesBE 32 gas_fees
  let w8 ← wordOfBytes32 (keccak paymaster_and_data)
  let inner_encoded := w1 ++ w2 ++ w3 ++ w4 ++ w5 ++ w6 ++ w7 ++ w8
  let entrypoint ← to_address (some ENTRYPOINT_V07_ADDRESS)
  let f1 ← wordOfBytes32 (keccak inner_encoded)
  let f2 ← wordOfAddress entrypoint
  let f3 ← wordOfUint256 chain_id
  let final_encoded := f1 ++ f2 ++ f3
  pure ("0x" ++ bytesToHex (keccak final_encoded))

/-! ### Spec-side formulation of the canonical hash

`spec_user_op_hash` is written from the specification's words (§4.1 of the
spec / claim C1), over already-resolved natural-number fields, to be
compared with `compute_user_op_hash` above. -/

/-- Resolved (post-extraction) user-operation fields, the value space the
specification's hashing algorithm speaks about. -/
structure ResolvedUserOp where
  sender : Bytes
  nonce : Nat
  init_code : Bytes
  call_data : Bytes
  call_gas_limit : Nat
  verification_gas_limit : Nat
  pre_verification_gas : Nat
  max_fee_per_gas : Nat
  max_priority_fee_per_gas : Nat
  payer : Option (Bytes × Nat × Nat × Bytes)
  deriving DecidableEq

/-- One 32-byte ABI word for an address: 12 zero bytes then the address. -/
def specAddressWord (b : Bytes) : Bytes := List.replicate 12 0 ++ b

/-- The canonical user-operation hash exactly as the specification states
it: pack the gas limits (verification high 128 bits, call low), pack the
fees (priority high, max low), build the payer-and-data byte string as
payer-address ‖ two 16-byte big-endian payer gas limits ‖ payer extra data
(empty without a payer), ABI-encode the 8-field tuple and hash it, then
hash the ABI encoding of (inner hash, entry-point address, chain id). -/
def spec_user_op_hash (keccak : Bytes → Bytes) (entry_point : Bytes)
    (chain_id : Nat) (r : ResolvedUserOp) : Bytes :=
  let packed_gas := natToBeBytes 32 (r.verification_gas_limit * 2 ^ 128 + r.call_gas_limit)
  let packed_fees := natToBeBytes 32 (r.max_priority_fee_per_gas * 2 ^ 128 + r.max_fee_per_gas)
  let payer_and_data :=
    match r.payer with
    | none => ([] : Bytes)
    | some (addr, pv, pp, extra) => addr ++ natToBeBytes 16 pv ++ natToBeBytes 16 pp ++ extra
  let inner :=
    specAddressWord r.sender ++ natToBeBytes 32 r.nonce ++ keccak r.init_code ++
      keccak r.call_data ++ packed_gas ++ natToBeBytes 32 r.pre_verification_gas ++
      packed_fees ++ keccak payer_and_data
  keccak (keccak inner ++ specAddressWord entry_point ++ natToBeBytes 32 chain_id)

/-- The 20 bytes of the EntryPoint v0.7 address. -/
def entry_point_bytes : Bytes :=
  (to_address (some ENTRYPOINT_V07_ADDRESS)).toOption.getD []

/-- The source's field-extraction helpers resolve `user_op` to the
resolved fields `r`.  Every extraction the Python code performs
unconditionally must succeed, including the paymaster conversions when no
paymaster is present. -/
def ResolvesTo (user_op : UserOp) (r : ResolvedUserOp) : Prop :=
  to_address user_op.sender = .ok r.sender ∧ r.sender.length = 20 ∧
  to_int user_op.nonce = .ok (r.nonce : Int) ∧
  to_bytes user_op.callData = .ok r.call_data ∧
  init_code_of user_op = .ok r.init_code ∧
  to_int user_op.callGasLimit = .ok (r.call_gas_limit : Int) ∧
  to_int user_op.verificationGasLimit = .ok (r.verification_gas_limit : Int) ∧
  to_int user_op.preVerificationGas = .ok (r.pre_verification_gas : Int) ∧
  to_int user_op.maxFeePerGas = .ok (r.max_fee_per_gas : Int) ∧
  to_int user_op.maxPriorityFeePerGas = .ok (r.max_priority_fee_per_gas : Int) ∧
  match r.payer with
  | none =>
    (user_op.paymaster = none ∨ user_op.paymaster = some "") ∧
    (∃ pv : Int, to_int user_op.paymasterVerificationGasLimit = .ok pv) ∧
    (∃ pp : Int, to_int user_op.paymasterPostOpGasLimit = .ok pp) ∧
    (∃ pd : Bytes, to_bytes user_op.paymasterData = .ok pd)
  | some (pa, pv, pp, pd) =>
    (∃ p, user_op.paymaster = some p ∧ p ≠ "" ∧ to_address (some p) = .ok pa) ∧
    to_int user_op.paymasterVerificationGasLimit = .ok (pv : Int) ∧
    to_int user_op.paymasterPostOpGasLimit = .ok (pp : Int) ∧
    to_bytes user_op.paymasterData = .ok pd

/-- Width bounds the specification assumes of the integer fields: the two
packed gas limits and the two fees are 128-bit quantities, the remaining
words 256-bit. -/
def InRange (r : ResolvedUserOp) : Prop :=
  r.nonce < 2 ^ 256 ∧
  r.call_gas_limit < 2 ^ 128 ∧ r.verification_gas_limit < 2 ^ 128 ∧
  r.pre_verification_gas < 2 ^ 256 ∧
  r.max_fee_per_gas < 2 ^ 128 ∧ r.max_priority_fee_per_gas < 2 ^ 128 ∧
  match r.payer with
  | none => True
  | some (_, pv, pp, _) => pv < 2 ^ 128 ∧ pp < 2 ^ 128

/-! ### The prepare-response verifier (`_verify_prepare_response`) -/

/-- The distinct refusal conditions of `_verify_prepare_response`.  The
source raises `ApiError` with a distinguishing message for the four
checks; `hashError` is an exception escaping from the hash computation
itself (a malformed numeric field). -/
inductive VerifyError where
  | notADeployment
  | senderMismatch
  | keyNotAuthorized
  | hashMismatch
  | hashError
  deriving DecidableEq

/-- The parts of the prepare response the verifier reads.  Absent keys
resolve through `.get` defaults: `agent_address`/`user_op_hash` to `""`,
`owners` to `[]`, `unsigned_user_op` to the empty dict. -/
structure PrepareResponse where
  unsigned_user_op : UserOp
  agent_address : String
  owners : List String
  user_op_hash : String

/-- `AmpersendManagementClient._verify_prepare_response`: deployment
check, sender check, ownership check, then hash check, first failure
wins. -/
def verify_prepare_response (keccak : Bytes → Bytes) (chain_id : Int)
    (response : PrepareResponse) (agent_key_address : String) :
    Except VerifyError Unit :=
  let user_op := response.unsigned_user_op
  if user_op.factory = none then .error .notADeployment
  else
    let sender_ok : Bool :=
      match user_op.sender with
      | none => false
      | some s => s ≠ "" && str_lower s == str_lower response.agent_address
    if sender_ok = false then .error .senderMismatch
    else
      let owner_addresses := response.owners.map str_lower
      if str_lower agent_key_address ∉ owner_addresses then .error .keyNotAuthorized
      else
        match compute_user_op_hash keccak chain_id user_op with
        | .error _ => .error .hashError
        | .ok computed =>
          if str_lower computed ≠ str_lower response.user_op_hash then .error .hashMismatch
          else .ok ()

/-- The sender field is present, non-empty and case-insensitively equal to
the declared agent address. -/
def sender_matches (user_op : UserOp) (agent_address : String) : Prop :=
  ∃ s, user_op.sender = some s ∧ s ≠ "" ∧ str_lower s = str_lower agent_address

/-- The signing key's address appears case-insensitively in the owners. -/
def key_in_owners (agent_key_address : String) (owners : List String) : Prop :=
  str_lower agent_key_address ∈ owners.map str_lower

/-- The recomputed hash exists and case-insensitively equals the
server-supplied one. -/
def hash_matches (keccak : Bytes → Bytes) (chain_id : Int) (user_op : UserOp)
    (server_hash : String) : Prop :=
  ∃ h, compute_user_op_hash keccak chain_id user_op = .ok h ∧
    str_lower h = str_lower server_hash

/-! ### The v2 ↔ v1 protocol adapter (`x402/v2_adapter.py`)

The chain-id registry `NETWORK_TO_ID` and the token-metadata registry live
in the external `x402` package, so the adapter functions take them as
parameters; a concrete sample registry is given below for witnesses. -/

/-- The `resource` object of a v2 envelope; `none` fields are absent
keys. -/
structure V2Resource where
  url : Option String := none
  mimeType : Option String := none
  deriving DecidableEq

/-- One entry of a v2 `accepts` list.  `network`, `amount`, `asset` and
`payTo` are the keys the adapter reads unconditionally. -/
structure V2Requirement where
  scheme : String
  network : String
  amount : String
  asset : String
  payTo : String
  maxTimeoutSeconds : Option Int := none
  description : Option String := none
  deriving DecidableEq

/-- A decoded v2 payment-required payload. -/
structure V2Envelope where
  x402Version : Option Int := none
  accepts : List V2Requirement := []
  resource : V2Resource := {}
  deriving DecidableEq

/-- The internal v1 `PaymentRequirements` record (x402 `PaymentRequirements`). -/
structure PaymentRequirements where
  scheme : String
  network : String
  max_amount_required : String
  resource : String
  description : String
  mime_type : String
  pay_to : String
  max_timeout_seconds : Int
  asset : String
  extra : Option (List (String × String)) := none
  deriving DecidableEq

/-- The internal v1 payment-required envelope (`x402PaymentRequiredResponse`). -/
structure X402PaymentRequiredResponse where
  x402_version : Int
  accepts : List PaymentRequirements
  error : String
  deriving DecidableEq

/-- Original v2 data preserved for building the outbound payment. -/
structure V2PaymentContext where
  resource : V2Resource
  deriving DecidableEq

/-- Decode failure of the adapter: the chain id has no registry entry
(Python `ValueError("Unknown chain ID: ...")`). -/
inductive DecodeErr where
  | unknownChainId (chain_id : String)
  deriving DecidableEq

/-- Python dict lookup over an association list with unique keys. -/
def dict_get (l : List (String × String)) (k : String) : Option String :=
  (l.find? fun p => decide (p.1 = k)).map (·.2)

/-- The inverse map `{v: k for k, v in network_to_id.items()}` as a lookup:
a later binding overwrites an earlier one, hence the reversed search. -/
def chain_id_to_network_map (network_to_id : List (String × String))
    (chain_id : String) : Option String :=
  (network_to_id.reverse.find? fun p => decide (p.2 = chain_id)).map (·.1)

/-- The characters between the first colon and the following colon or end
of string, when a colon occurs at all (`s.split(":")[1]`). -/
def caip2_field1 : List Char → Option (List Char)
  | [] => none
  | ':' :: rest => some (rest.takeWhile fun c => decide (c ≠ ':'))
  | _ :: rest => caip2_field1 rest

/-- `_parse_caip2_chain_id`: `"eip155:8453"` → `"8453"`, passthrough when
no colon occurs. -/
def parse_caip2_chain_id (network : String) : String :=
  match caip2_field1 network.toList with
  | some cs => String.mk cs
  | none => network

/-- `_chain_id_to_v1_network`: registry lookup, `UnknownChainId` when
absent. -/
def chain_id_to_v1_network (network_to_id : List (String × String))
    (chain_id : String) : Except DecodeErr String :=
  match chain_id_to_network_map network_to_id chain_id with
  | none => .error (.unknownChainId chain_id)
  | some name => .ok name

/-- Modelled from the spec: the fixed bidirectional chain registry
(`NETWORK_TO_ID` of the external `x402` package, absent from `src/`),
mapping internal network names to chain-id strings; the spec's §8 example
fixes `base-sepolia ↔ 84532`. -/
def NETWORK_TO_ID : List (String × String) :=
  [("base", "8453"), ("base-sepolia", "84532")]

/-- `_DEFAULT_MAX_TIMEOUT_SECONDS` of `v2_adapter.py`. -/
def DEFAULT_MAX_TIMEOUT_SECONDS : Int := 300

/-- The per-requirement conversion step of `v2_to_v1_payment_required`,
parametric in the external token-metadata registry (`get_token_name`,
`get_token_version`). -/
def convert_v2_requirement (network_to_id : List (String × String))
    (get_token_name get_token_version : String → String → String)
    (resource : V2Resource) (req : V2Requirement) :
    Except DecodeErr PaymentRequirements := do
  let chain_id := parse_caip2_chain_id req.network
  let network_name ← chain_id_to_v1_network network_to_id chain_id
  let asset := req.asset
  let extra := [("name", get_token_name chain_id asset),
                ("version", get_token_version chain_id asset)]
  pure { scheme := req.scheme
         network := network_name
         max_amount_required := req.amount
         resource := resource.url.getD ""
         description := req.description.getD (resource.url.getD "Payment")
         mime_type := resource.mimeType.getD ""
         pay_to := req.payTo
         max_timeout_seconds := req.maxTimeoutSeconds.getD DEFAULT_MAX_TIMEOUT_SECONDS
         asset := asset
         extra := some extra }

/-- The conversion loop over the v2 `accepts` list: first failure aborts. -/
def convert_v2_accepts (network_to_id : List (String × String))
    (get_token_name get_token_version : String → String → String)
    (resource : V2Resource) : List V2Requirement →
    Except DecodeErr (List PaymentRequirements)
  | [] => .ok []
  | req :: rest => do
    let v1 ← convert_v2_requirement network_to_id get_token_name get_token_version resource req
    let tl ← convert_v2_accepts network_to_id get_token_name get_token_version resource rest
    pure (v1 :: tl)

/-- `v2_to_v1_payment_required`: decode a v2 payload into the internal v1
envelope plus the preserved v2 context. -/
def v2_to_v1_payment_required (network_to_id : List (String × String))
    (get_token_name get_token_version : String → String → String)
    (decoded : V2Envelope) :
    Except DecodeErr (X402PaymentRequiredResponse × V2PaymentContext) := do
  let resource := decoded.resource
  let v1_requirements ← convert_v2_accepts network_to_id get_token_name
    get_token_version resource decoded.accepts
  pure ({ x402_version := decoded.x402Version.getD 2
          accepts := v1_requirements
          error := "Payment required" },
        { resource := resource })

/-- A v2 `accepted` object as rebuilt by the outbound encoder. -/
structure V2Accepted where
  scheme : String
  network : String
  amount : String
  asset : String
  payTo : String
  maxTimeoutSeconds : Int
  deriving DecidableEq

/-- `_v1_requirement_to_v2_accepted`: re-derive `eip155:<chainId>` from
the internal network name (`KeyError` if the name is not in the
registry). -/
def v1_requirement_to_v2_accepted (network_to_id : List (String × String))
    (req : PaymentRequirements) : Except Unit V2Accepted :=
  match dict_get network_to_id req.network with
  | none => .error ()
  | some chain_id =>
    .ok { scheme := req.scheme
          network := "eip155:" ++ chain_id
          amount := req.max_amount_required
          asset := req.asset
          payTo := req.pay_to
          maxTimeoutSeconds := req.max_timeout_seconds }

/-- The outbound v2 payment envelope; the proof payload is opaque. -/
structure V2PaymentPayloadOut where
  x402Version : Int
  resource : V2Resource
  accepted : V2Accepted
  payload : String
  deriving DecidableEq

/-- `v1_to_v2_payment_payload`: rebuild the v2 envelope from the selected
requirement, carrying the original resource object through and embedding
the proof payload verbatim. -/
def v1_to_v2_payment_payload (network_to_id : List (String × String))
    (payment_payload : String) (v2_context : V2PaymentContext)
    (selected_requirement : PaymentRequirements) :
    Except Unit V2PaymentPayloadOut := do
  let accepted ← v1_requirement_to_v2_accepted network_to_id selected_requirement
  pure { x402Version := 2
         resource := v2_context.resource
         accepted := accepted
         payload := payment_payload }

/-! ### The payment-interception transport (`x402/http/transport.py`)

The underlying transport is modelled as a script of responses consumed in
order; the treasurer, the envelope codecs and the header encoders are
parameters (they are the Authorization Port and external serialization).
The retry-guard extension entry is an explicit `is_retry` field, and the
port interactions are returned as logs, mirroring the unit tests' fakes. -/

/-- An HTTP request as the transport sees it. -/
structure Request where
  method : String
  url : String
  headers : List (String × String)
  content : String
  is_retry : Bool := false
  deriving DecidableEq

/-- An HTTP response. -/
structure Response where
  status : Nat
  headers : List (String × String)
  body : String
  deriving DecidableEq

/-- Case-insensitive header lookup (httpx header semantics). -/
def get_header (headers : List (String × String)) (name : String) : Option String :=
  (headers.find? fun p => decide (str_lower p.1 = str_lower name)).map (·.2)

/-- Case-insensitive header update: replace the first occurrence, drop
later duplicates, append when absent (httpx `Headers.__setitem__`). -/
def set_header (headers : List (String × String)) (name value : String) :
    List (String × String) :=
  match headers with
  | [] => [(name, value)]
  | (k, v) :: rest =>
    if str_lower k = str_lower name then
      (k, value) :: rest.filter (fun p => decide (str_lower p.1 ≠ str_lower name))
    else (k, v) :: set_header rest name value

/-- Python's falsy `or` on optional header values: an empty string falls
through to the second lookup. -/
def py_or (a b : Option String) : Option String :=
  match a with
  | some s => if s = "" then b else some s
  | none => b

/-- `_get_v2_header`: the `x-payment-required` header, else
`payment-required`. -/
def get_v2_header (response : Response) : Option String :=
  py_or (get_header response.headers "x-payment-required")
    (get_header response.headers "payment-required")

/-- `_has_payment_response`: either payment-response header is present. -/
def has_payment_response (response : Response) : Bool :=
  (get_header response.headers "payment-response").isSome ||
    (get_header response.headers "x-payment-response").isSome

/-- The payment statuses the transport reports. -/
inductive PaymentStatus where
  | completed
  | rejected
  | failed
  deriving DecidableEq

/-- An x402 authorization produced by the treasurer: opaque proof payload,
fresh id, and the requirement it selected. -/
structure X402Authorization where
  payment : String
  authorization_id : String
  selected_requirement : PaymentRequirements
  deriving DecidableEq

/-- The context dict `{"method": "http", "params": {"resource": url}}`. -/
structure RequestContext where
  method : String
  resource : String
  deriving DecidableEq

/-- One `onStatus` notification to the Authorization Port. -/
structure StatusReport where
  status : PaymentStatus
  authorization : X402Authorization
  context : RequestContext
  deriving DecidableEq

/-- External collaborators of the transport: the body/header codecs, the
header encoders, and the treasurer's `onPaymentRequired` decision. -/
structure TransportCfg where
  parse_v1 : String → Option X402PaymentRequiredResponse
  parse_v2 : String → Except DecodeErr (X402PaymentRequiredResponse × V2PaymentContext)
  encode_v1_payment_header : String → String
  encode_v2_payment_signature : String → V2PaymentContext → PaymentRequirements → String
  authorize : X402PaymentRequiredResponse → RequestContext → Option X402Authorization

/-- Everything one logical call produces: the response handed to the
caller, the underlying requests issued in order, the `onPaymentRequired`
invocations and the `onStatus` reports. -/
structure TransportResult where
  response : Response
  sent_requests : List Request
  payment_required_calls : List (X402PaymentRequiredResponse × RequestContext)
  status_reports : List StatusReport
  deriving DecidableEq

/-- `_report_status`'s classification of the retried response. -/
def classify_retry_response (response : Response) : PaymentStatus :=
  if response.status = 402 then .rejected
  else if response.status = 200 ∨ has_payment_response response then .completed
  else .failed

/-- `_retry`: rebuild the original request with the payment header set and
the retry flag added to the extensions. -/
def build_retry_request (original : Request) (header_name header_value : String) :
    Request :=
  { method := original.method
    url := original.url
    headers := set_header original.headers header_name header_value
    content := original.content
    is_retry := true }

/-- `httpx.Response(status_code=402, headers=response.headers, content=body)`:
the passthrough copy of a consumed 402. -/
def passthrough_402 (response : Response) (body : String) : Response :=
  { status := 402, headers := response.headers, body := body }

/-- The shared tail of `_handle_v1`/`_handle_v2` once an authorization was
obtained: send the single retry and report the classified status. -/
def retry_and_report (request : Request)
    (header_name header_value : String) (authorization : X402Authorization)
    (env : X402PaymentRequiredResponse) (ctx : RequestContext)
    (script : List Response) : Option TransportResult :=
  match script with
  | [] => none
  | retry_response :: _ =>
    some { response := retry_response
           sent_requests := [request, build_retry_request request header_name header_value]
           payment_required_calls := [(env, ctx)]
           status_reports :=
             [{ status := classify_retry_response retry_response
                authorization := authorization
                context := ctx }] }

/-- `_handle_v1`: parse the 402 body, consult the treasurer, retry with the
`x-payment` header. -/
def handle_v1 (cfg : TransportCfg) (request : Request) (response : Response)
    (body : String) (script : List Response) : Option TransportResult :=
  match cfg.parse_v1 body with
  | none =>
    some { response := passthrough_402 response body
           sent_requests := [request]
           payment_required_calls := []
           status_reports := [] }
  | some payment_required =>
    match cfg.authorize payment_required { method := "http", resource := request.url } with
    | none =>
      some { response := passthrough_402 response body
             sent_requests := [request]
             payment_required_calls :=
               [(payment_required, { method := "http", resource := request.url })]
             status_reports := [] }
    | some authorization =>
      retry_and_report request "x-payment"
        (cfg.encode_v1_payment_header authorization.payment)
        authorization payment_required { method := "http", resource := request.url } script

/-- `_handle_v2`: parse the v2 header (any decode error, `UnknownChainId`
included, is caught and degrades to passthrough), consult the treasurer,
retry with the `payment-signature` header. -/
def handle_v2 (cfg : TransportCfg) (request : Request) (response : Response)
    (body : String) (header_value : String) (script : List Response) :
    Option TransportResult :=
  match cfg.parse_v2 header_value with
  | .error _ =>
    some { response := passthrough_402 response body
           sent_requests := [request]
           payment_required_calls := []
           status_reports := [] }
  | .ok (payment_required, v2_ctx) =>
    match cfg.authorize payment_required { method := "http", resource := request.url } with
    | none =>
      some { response := passthrough_402 response body
             sent_requests := [request]
             payment_required_calls :=
               [(payment_required, { method := "http", resource := request.url })]
             status_reports := [] }
    | some authorization =>
      retry_and_report request "payment-signature"
        (cfg.encode_v2_payment_signature authorization.payment v2_ctx
          authorization.selected_requirement)
        authorization payment_required { method := "http", resource := request.url } script

/-- `X402HttpTransport.handle_async_request` over a scripted underlying
transport: `none` means the script ran out of responses. -/
def handle_async_request (cfg : TransportCfg) (script : List Response)
    (request : Request) : Option TransportResult :=
  match script with
  | [] => none
  | response :: rest =>
    if response.status ≠ 402 then
      some { response := response
             sent_requests := [request]
             payment_required_calls := []
             status_reports := [] }
    else if request.is_retry then
      some { response := response
             sent_requests := [request]
             payment_required_calls := []
             status_reports := [] }
    else
      match get_v2_header response with
      | some header_value => handle_v2 cfg request response response.body header_value rest
      | none => handle_v1 cfg request response response.body rest

/-! ### Sample values used by the witness theorems -/

/-- A stand-in keccak primitive of the correct output width. -/
def keccakW : Bytes → Bytes := fun _ => List.replicate 32 0

/-- A sample well-formed unsigned user operation exercising native-int,
hex-string and decimal-string field encodings, and absent optional
fields. -/
def userOpW : UserOp :=
  { sender := some "0x1111111111111111111111111111111111111111"
    nonce := .vStr "0x2a"
    factory := some "0xdef0000000000000000000000000000000000000"
    factoryData := some "0x00"
    callData := some "0x"
    callGasLimit := .vStr "4096"
    verificationGasLimit := .vInt 4096
    preVerificationGas := .vStr "0x1000"
    maxFeePerGas := .vStr "0x1000"
    maxPriorityFeePerGas := .vInt 4096
    paymaster := none
    paymasterVerificationGasLimit := .vNone
    paymasterPostOpGasLimit := .vNone
    paymasterData := none }

/-- The resolved fields of `userOpW`. -/
def resolvedW : ResolvedUserOp :=
  { sender := List.replicate 20 17
    nonce := 42
    init_code := [222, 240] ++ List.replicate 18 0 ++ [0]
    call_data := []
    call_gas_limit := 4096
    verification_gas_limit := 4096
    pre_verification_gas := 4096
    max_fee_per_gas := 4096
    max_priority_fee_per_gas := 4096
    payer := none }

/-- The all-zero hash string `keccakW` gives rise to. -/
def zeroHashW : String := "0x" ++ bytesToHex (List.replicate 32 0)

/-- A prepare response that passes all four verifier checks against
`keccakW` (owners listed in lowercase while the key is mixed-case, to
exercise the case-insensitive comparison). -/
def prepareResponseW : PrepareResponse :=
  { unsigned_user_op := userOpW
    agent_address := "0x1111111111111111111111111111111111111111"
    owners := ["0x2222222222222222222222222222222222222222",
               "0xabcdef0000000000000000000000000000000001"]
    user_op_hash := zeroHashW }

/-- The signing key address used with `prepareResponseW`. -/
def agentKeyW : String := "0xABCDEF0000000000000000000000000000000001"

/-- A prepare response whose operation is not a deployment. -/
def badPrepareResponseW : PrepareResponse :=
  { unsigned_user_op := {}
    agent_address := ""
    owners := []
    user_op_hash := "" }

/-- A sample v1 payment requirement. -/
def sampleRequirement : PaymentRequirements :=
  { scheme := "exact"
    network := "base-sepolia"
    max_amount_required := "1000000"
    resource := "https://api.example.com/resource"
    description := "Test payment"
    mime_type := "application/json"
    pay_to := "0x1234567890123456789012345678901234567890"
    max_timeout_seconds := 300
    asset := "0x036CbD53842c5426634e7929541eC2318f3dCF7e"
    extra := none }

/-- A sample v1 payment-required envelope. -/
def sampleEnvelope : X402PaymentRequiredResponse :=
  { x402_version := 1
    accepts := [sampleRequirement]
    error := "Payment required" }

/-- A sample authorization returned by the treasurer. -/
def sampleAuthorization : X402Authorization :=
  { payment := "signed-proof"
    authorization_id := "auth-1"
    selected_requirement := sampleRequirement }

/-- A sample original request. -/
def sampleRequest : Request :=
  { method := "GET"
    url := "https://api.example.com/resource"
    headers := [("accept", "application/json")]
    content := ""
    is_retry := false }

/-- A sample preserved v2 context. -/
def sampleV2Context : V2PaymentContext :=
  { resource := { url := some "https://api.example.com/resource"
                  mimeType := some "application/json" } }

/-- Transport collaborators with fixed codec and treasurer behaviour. -/
def mkCfg (auth : Option X402Authorization)
    (pv1 : Option X402PaymentRequiredResponse)
    (pv2 : Except DecodeErr (X402PaymentRequiredResponse × V2PaymentContext)) :
    TransportCfg :=
  { parse_v1 := fun _ => pv1
    parse_v2 := fun _ => pv2
    encode_v1_payment_header := fun p => p
    encode_v2_payment_signature := fun p _ _ => p
    authorize := fun _ _ => auth }

/-- Modelled from the spec: the external token-metadata registry's
display-name lookup (`get_token_name` of the `x402` package). -/
def sampleTokenName : String → String → String := fun _ _ => "USD Coin"

/-- Modelled from the spec: the external token-metadata registry's
version lookup (`get_token_version` of the `x402` package). -/
def sampleTokenVersion : String → String → String := fun _ _ => "2"

/-- A well-formed v2 envelope over a known chain id. -/
def goodV2Envelope : V2Envelope :=
  { x402Version := some 2
    accepts := [{ scheme := "exact"
                  network := "eip155:84532"
                  amount := "1000000"
                  asset := "0x036CbD53842c5426634e7929541eC2318f3dCF7e"
                  payTo := "0x1234567890123456789012345678901234567890" }]
    resource := { url := some "https://api.example.com/resource"
                  mimeType := some "application/json" } }

/-- A v2 envelope whose requirement names a chain id absent from the
registry. -/
def badV2Envelope : V2Envelope :=
  { x402Version := some 2
    accepts := [{ scheme := "exact"
                  network := "eip155:99999"
                  amount := "1000"
                  asset := "0xUnknown"
                  payTo := "0xRecipient" }]
    resource := { url := some "https://api.example.com/chat" } }

/-- A sample v1 402 response. -/
def resp402W : Response :=
  { status := 402, headers := [("content-type", "application/json")], body := "{}" }

/-- A sample v2 402 response carrying the v2 header. -/
def resp402v2W : Response :=
  { status := 402, headers := [("x-payment-required", "aGRy")], body := "{}" }

/-- A sample success response. -/
def resp200W : Response := { status := 200, headers := [], body := "paid content" }

/-- The sample request flagged as a retry. -/
def retryReqW : Request := { sampleRequest with is_retry := true }

/-- The v1 requirement `goodV2Envelope` decodes to. -/
def goodV1RequirementW : PaymentRequirements :=
  { scheme := "exact"
    network := "base-sepolia"
    max_amount_required := "1000000"
    resource := "https://api.example.com/resource"
    description := "https://api.example.com/resource"
    mime_type := "application/json"
    pay_to := "0x1234567890123456789012345678901234567890"
    max_timeout_seconds := 300
    asset := "0x036CbD53842c5426634e7929541eC2318f3dCF7e"
    extra := some [("name", "USD Coin"), ("version", "2")] }

/-- The v1 envelope `goodV2Envelope` decodes to. -/
def goodDecodedW : X402PaymentRequiredResponse :=
  { x402_version := 2
    accepts := [goodV1RequirementW]
    error := "Payment required" }

/-- The v2 context preserved when decoding `goodV2Envelope`. -/
def goodCtxW : V2PaymentContext :=
  { resource := { url := some "https://api.example.com/resource"
                  mimeType := some "application/json" } }

/-! ### Helper lemmas -/

theorem intToBytesBE_natCast (len n : Nat) (h : n < 256 ^ len) :
    intToBytesBE len (n : Int) = .ok (natToBeBytes len n) := by
  unfold intToBytesBE
  rw [if_pos]
  · simp
  · exact ⟨Int.natCast_nonneg n, by exact_mod_cast h⟩

theorem pack128_natCast (v c : Nat) :
    pack128 (v : Int) (c : Int) = ((v <<< 128 ||| c : Nat) : Int) := by
  unfold pack128
  rw [if_neg]
  · simp
  · push_neg
    exact ⟨Int.natCast_nonneg v, Int.natCast_nonneg c⟩

theorem shiftLeft128_lor (v c : Nat) (hc : c < 2 ^ 128) :
    (v <<< 128) ||| c = v * 2 ^ 128 + c := by
  rw [Nat.shiftLeft_eq, Nat.mul_comm, Nat.mul_add_lt_is_or hc, Nat.mul_comm]

theorem packed_lt (v c : Nat) (hv : v < 2 ^ 128) (hc : c < 2 ^ 128) :
    v * 2 ^ 128 + c < 2 ^ 256 := by
  calc v * 2 ^ 128 + c < v * 2 ^ 128 + 2 ^ 128 := Nat.add_lt_add_left hc _
    _ = (v + 1) * 2 ^ 128 := by ring
    _ ≤ 2 ^ 128 * 2 ^ 128 := Nat.mul_le_mul_right _ hv
    _ = 2 ^ 256 := by norm_num

theorem intToBytesBE_pack128 (v c : Nat) (hv : v < 2 ^ 128) (hc : c < 2 ^ 128) :
    intToBytesBE 32 (pack128 (v : Int) (c : Int)) =
      .ok (natToBeBytes 32 (v * 2 ^ 128 + c)) := by
  rw [pack128_natCast, shiftLeft128_lor v c hc, intToBytesBE_natCast]
  have := packed_lt v c hv hc
  norm_num at this ⊢
  omega

theorem wordOfUint256_natCast (n : Nat) (h : n < 2 ^ 256) :
    wordOfUint256 (n : Int) = .ok (natToBeBytes 32 n) := by
  rw [wordOfUint256, intToBytesBE_natCast]
  norm_num at h ⊢
  omega

theorem wordOfAddress_of_len (b : Bytes) (h : b.length = 20) :
    wordOfAddress b = .ok (specAddressWord b) := by
  simp [wordOfAddress, specAddressWord, h]

theorem wordOfBytes32_hash (keccak : Bytes → Bytes)
    (hk : ∀ b, (keccak b).length = 32) (b : Bytes) :
    wordOfBytes32 (keccak b) = .ok (keccak b) := by
  simp [wordOfBytes32, hk]

theorem to_address_entrypoint :
    to_address (some ENTRYPOINT_V07_ADDRESS) = .ok entry_point_bytes := by
  rfl

theorem entry_point_bytes_len : entry_point_bytes.length = 20 := by
  rfl

theorem paymaster_and_data_of_falsy {p : Option String}
    (h : p = none ∨ p = some "") (a b : Int) (d : Bytes) :
    paymaster_and_data_of p a b d = .ok [] := by
  rcases h with h | h <;> rw [h] <;> rfl

theorem paymaster_and_data_of_some (p : String) (pa : Bytes) (hpne : p ≠ "")
    (hpa : to_address (some p) = .ok pa) (pv pp : Nat)
    (hpv : pv < 2 ^ 128) (hpp : pp < 2 ^ 128) (pd : Bytes) :
    paymaster_and_data_of (some p) (pv : Int) (pp : Int) pd =
      .ok (pa ++ natToBeBytes 16 pv ++ natToBeBytes 16 pp ++ pd) := by
  have hpv' : pv < 256 ^ 16 := lt_of_lt_of_le hpv (by norm_num)
  have hpp' : pp < 256 ^ 16 := lt_of_lt_of_le hpp (by norm_num)
  simp only [paymaster_and_data_of]
  rw [if_neg hpne]
  rw [hpa, intToBytesBE_natCast 16 pv hpv', intToBytesBE_natCast 16 pp hpp']
  rfl

/-- C1: for every user-operation description, the canonical hash is
computed exactly as specified — gas limits packed with verification high /
call low, fees packed with priority high / max low, paymaster-and-data as
payer address ‖ two 16-byte big-endian limits ‖ extra data (empty without
a payer), the 8-field tuple ABI-encoded and hashed, and the final hash the
hash of the ABI encoding of (inner hash, entry point, chain id); native
ints, hex strings and decimal strings are all accepted as integer fields,
and absent optional fields resolve to zero/empty rather than erroring. -/
theorem except_bind_ok {α β ε : Type} (a : α) (f : α → Except ε β) :
    (Except.ok a : Except ε α) >>= f = f a := rfl

theorem except_map_pure {α ε : Type} (a : α) :
    (pure a : Except ε α) = Except.ok a := rfl

theorem compute_refinement_payer_none (keccak : Bytes → Bytes)
    (hk : ∀ b, (keccak b).length = 32) (chain_id : Nat) (hchain : chain_id < 2 ^ 256)
    (user_op : UserOp) (r : ResolvedUserOp) (hres : ResolvesTo user_op r)
    (hrange : InRange r) (hp : r.payer = none) :
    compute_user_op_hash keccak (chain_id : Int) user_op =
      .ok ("0x" ++ bytesToHex (spec_user_op_hash keccak entry_point_bytes chain_id r)) := by
  obtain ⟨hs, hslen, hn, hcd, hic, hcg, hvg, hpvg, hmf, hmpf, hpm⟩ := hres
  obtain ⟨hn256, hcg128, hvg128, hpv256, hmf128, hmpf128, hpay⟩ := hrange
  have hw1 := wordOfAddress_of_len r.sender hslen
  have hw2 := wordOfUint256_natCast r.nonce hn256
  have hw5 := intToBytesBE_pack128 r.verification_gas_limit r.call_gas_limit hvg128 hcg128
  have hw6 := wordOfUint256_natCast r.pre_verification_gas hpv256
  have hw7 := intToBytesBE_pack128 r.max_priority_fee_per_gas r.max_fee_per_gas hmpf128 hmf128
  have hcid := wordOfUint256_natCast chain_id hchain
  have hep := wordOfAddress_of_len entry_point_bytes entry_point_bytes_len
  rw [hp] at hpm
  obtain ⟨hpfalsy, ⟨pvi, hpvi⟩, ⟨ppi, hppi⟩, ⟨pdb, hpdb⟩⟩ := hpm
  have hpmd := paymaster_and_data_of_falsy hpfalsy pvi ppi pdb
  simp only [compute_user_op_hash, hs, hn, hcd, hcg, hvg, hpvg, hmf, hmpf,
    hpvi, hppi, hpdb, hic, hpmd, hw1, hw2, hw5, hw6, hw7, hcid,
    to_address_entrypoint, hep, wordOfBytes32_hash keccak hk,
    except_bind_ok, except_map_pure, Except.ok.injEq]
  simp only [spec_user_op_hash, hp, specAddressWord]

theorem compute_refinement_payer_some (keccak : Bytes → Bytes)
    (hk : ∀ b, (keccak b).length = 32) (chain_id : Nat) (hchain : chain_id < 2 ^ 256)
    (user_op : UserOp) (r : ResolvedUserOp) (hres : ResolvesTo user_op r)
    (hrange : InRange r) (pa : Bytes) (pv pp : Nat) (pd : Bytes)
    (hp : r.payer = some (pa, pv, pp, pd)) :
    compute_user_op_hash keccak (chain_id : Int) user_op =
      .ok ("0x" ++ bytesToHex (spec_user_op_hash keccak entry_point_bytes chain_id r)) := by
  obtain ⟨hs, hslen, hn, hcd, hic, hcg, hvg, hpvg, hmf, hmpf, hpm⟩ := hres
  obtain ⟨hn256, hcg128, hvg128, hpv256, hmf128, hmpf128, hpay⟩ := hrange
  have hw1 := wordOfAddress_of_len r.sender hslen
  have hw2 := wordOfUint256_natCast r.nonce hn256
  have hw5 := intToBytesBE_pack128 r.verification_gas_limit r.call_gas_limit hvg128 hcg128
  have hw6 := wordOfUint256_natCast r.pre_verification_gas hpv256
  have hw7 := intToBytesBE_pack128 r.max_priority_fee_per_gas r.max_fee_per_gas hmpf128 hmf128
  have hcid := wordOfUint256_natCast chain_id hchain
  have hep := wordOfAddress_of_len entry_point_bytes entry_point_bytes_len
  rw [hp] at hpm hpay
  obtain ⟨⟨pstr, hpstr, hpne, hpaddr⟩, hpvi, hppi, hpdb⟩ := hpm
  have hpmd : paymaster_and_data_of user_op.paymaster (pv : Int) (pp : Int) pd =
      .ok (pa ++ natToBeBytes 16 pv ++ natToBeBytes 16 pp ++ pd) := by
    rw [hpstr]
    exact paymaster_and_data_of_some pstr pa hpne hpaddr pv pp hpay.1 hpay.2 pd
  simp only [compute_user_op_hash, hs, hn, hcd, hcg, hvg, hpvg, hmf, hmpf,
    hpvi, hppi, hpdb, hic, hpmd, hw1, hw2, hw5, hw6, hw7, hcid,
    to_address_entrypoint, hep, wordOfBytes32_hash keccak hk,
    except_bind_ok, except_map_pure, Except.ok.injEq]
  simp only [spec_user_op_hash, hp, specAddressWord]

theorem compute_user_op_hash_correct :
    (∀ (keccak : Bytes → Bytes), (∀ b, (keccak b).length = 32) →
      ∀ chain_id : Nat, chain_id < 2 ^ 256 →
      ∀ (user_op : UserOp) (r : ResolvedUserOp), ResolvesTo user_op r → InRange r →
        compute_user_op_hash keccak (chain_id : Int) user_op =
          .ok ("0x" ++ bytesToHex (spec_user_op_hash keccak entry_point_bytes chain_id r))) ∧
    (∀ n : Int, to_int (.vInt n) = .ok n) ∧
    (∀ (s : String) (n : Nat), startsWith0x s = true →
      parseHexNat (s.drop 2).toList = some n → to_int (.vStr s) = .ok (n : Int)) ∧
    (∀ (s : String) (v : Int), startsWith0x s = false →
      parseDecInt s.toList = some v → to_int (.vStr s) = .ok v) ∧
    to_int .vNone = .ok 0 ∧
    to_bytes none = .ok [] ∧
    to_address none = .ok (List.replicate 20 0) ∧
    (∀ u : UserOp, u.factory = none → init_code_of u = .ok []) ∧
    (∀ (pv pp : Int) (pd : Bytes), paymaster_and_data_of none pv pp pd = .ok []) := by
  refine ⟨?_, fun n => rfl, ?_, ?_, rfl, rfl, rfl, ?_, fun pv pp pd => rfl⟩
  · intro keccak hk chain_id hchain user_op r hres hrange
    rcases hp : r.payer with _ | ⟨pa, pv, pp, pd⟩
    · exact compute_refinement_payer_none keccak hk chain_id hchain user_op r hres hrange hp
    · exact compute_refinement_payer_some keccak hk chain_id hchain user_op r hres hrange
        pa pv pp pd hp
  · intro s n h1 h2
    simp at h2
    simp [to_int, h1, h2]
  · intro s v h1 h2
    simp at h2
    simp [to_int, h1, h2]
  · intro u h
    simp [init_code_of, h]

/-- Witness for C1 at a concrete user operation, a concrete 32-byte hash
primitive and chain id 84532. -/
theorem compute_user_op_hash_correct_witness :
    compute_user_op_hash keccakW ((84532 : Nat) : Int) userOpW =
      .ok ("0x" ++ bytesToHex (spec_user_op_hash keccakW entry_point_bytes 84532 resolvedW)) :=
  compute_user_op_hash_correct.1 keccakW (fun _ => rfl) 84532 (by norm_num)
    userOpW resolvedW
    ⟨rfl, rfl, rfl, rfl, rfl, rfl, rfl, rfl, rfl, rfl,
      Or.inl rfl, ⟨0, rfl⟩, ⟨0, rfl⟩, ⟨[], rfl⟩⟩
    ⟨by decide, by decide, by decide, by decide, by decide, by decide, trivial⟩

/-! ### Verifier lemmas (claim C2) -/

theorem verify_err_notADeployment (keccak : Bytes → Bytes) (chain_id : Int)
    (response : PrepareResponse) (agent_key_address : String)
    (h : response.unsigned_user_op.factory = none) :
    verify_prepare_response keccak chain_id response agent_key_address =
      .error .notADeployment := by
  simp [verify_prepare_response, h]

theorem verify_err_senderMismatch (keccak : Bytes → Bytes) (chain_id : Int)
    (response : PrepareResponse) (agent_key_address : String)
    (hf : response.unsigned_user_op.factory ≠ none)
    (hsm : ¬ sender_matches response.unsigned_user_op response.agent_address) :
    verify_prepare_response keccak chain_id response agent_key_address =
      .error .senderMismatch := by
  have hso : (match response.unsigned_user_op.sender with
      | none => false
      | some s => decide (s ≠ "") && (str_lower s == str_lower response.agent_address)) =
      false := by
    cases hs : response.unsigned_user_op.sender with
    | none => rfl
    | some s =>
      by_contra hb
      rw [Bool.not_eq_false, Bool.and_eq_true, decide_eq_true_iff, beq_iff_eq] at hb
      exact hsm ⟨s, hs, hb.1, hb.2⟩
  simp only [verify_prepare_response, if_neg hf]
  rw [if_pos hso]

theorem verify_err_keyNotAuthorized (keccak : Bytes → Bytes) (chain_id : Int)
    (response : PrepareResponse) (agent_key_address : String)
    (hf : response.unsigned_user_op.factory ≠ none)
    (hsm : sender_matches response.unsigned_user_op response.agent_address)
    (hko : ¬ key_in_owners agent_key_address response.owners) :
    verify_prepare_response keccak chain_id response agent_key_address =
      .error .keyNotAuthorized := by
  obtain ⟨s, hs, hne, heq⟩ := hsm
  simp only [key_in_owners] at hko
  simp only [verify_prepare_response, if_neg hf, hs, heq]
  rw [if_neg (by simp [hne])]
  rw [if_pos hko]

theorem verify_err_hashMismatch (keccak : Bytes → Bytes) (chain_id : Int)
    (response : PrepareResponse) (agent_key_address : String)
    (hf : response.unsigned_user_op.factory ≠ none)
    (hsm : sender_matches response.unsigned_user_op response.agent_address)
    (hko : key_in_owners agent_key_address response.owners)
    (h : String)
    (hcomp : compute_user_op_hash keccak chain_id response.unsigned_user_op = .ok h)
    (hne : str_lower h ≠ str_lower response.user_op_hash) :
    verify_prepare_response keccak chain_id response agent_key_address =
      .error .hashMismatch := by
  obtain ⟨s, hs, hsne, heq⟩ := hsm
  simp only [key_in_owners] at hko
  simp only [verify_prepare_response, if_neg hf, hs, heq]
  rw [if_neg (by simp [hsne])]
  rw [if_neg (by simpa using hko)]
  rw [hcomp]
  simp only [if_pos hne]

theorem verify_ok_iff (keccak : Bytes → Bytes) (chain_id : Int)
    (response : PrepareResponse) (agent_key_address : String) :
    verify_prepare_response keccak chain_id response agent_key_address = .ok () ↔
      response.unsigned_user_op.factory ≠ none ∧
      sender_matches response.unsigned_user_op response.agent_address ∧
      key_in_owners agent_key_address response.owners ∧
      hash_matches keccak chain_id response.unsigned_user_op response.user_op_hash := by
  constructor
  · intro hok
    have hf : response.unsigned_user_op.factory ≠ none := by
      intro h
      rw [verify_err_notADeployment keccak chain_id response agent_key_address h] at hok
      cases hok
    have hsm : sender_matches response.unsigned_user_op response.agent_address := by
      by_contra hn
      rw [verify_err_senderMismatch keccak chain_id response agent_key_address hf hn] at hok
      cases hok
    have hko : key_in_owners agent_key_address response.owners := by
      by_contra hn
      rw [verify_err_keyNotAuthorized keccak chain_id response agent_key_address hf hsm hn]
        at hok
      cases hok
    refine ⟨hf, hsm, hko, ?_⟩
    obtain ⟨s, hs, hsne, heq⟩ := hsm
    have hko' : str_lower agent_key_address ∈ List.map str_lower response.owners := hko
    simp only [verify_prepare_response, if_neg hf, hs, heq] at hok
    rw [if_neg (by simp [hsne])] at hok
    rw [if_neg (by simpa using hko')] at hok
    split at hok
    · cases hok
    · rename_i computed hcm2
      by_cases hne : str_lower computed ≠ str_lower response.user_op_hash
      · rw [if_pos hne] at hok; cases hok
      · exact ⟨computed, hcm2, not_not.mp hne⟩
  · rintro ⟨hf, hsm, hko, hval, hcm, heqh⟩
    obtain ⟨s, hs, hsne, heq⟩ := hsm
    have hko' : str_lower agent_key_address ∈ List.map str_lower response.owners := hko
    simp only [verify_prepare_response, if_neg hf, hs, heq]
    rw [if_neg (by simp [hsne])]
    rw [if_neg (by simpa using hko')]
    rw [hcm]
    simp [heqh]

/-- C2: the verifier evaluates deployment-present, sender-matches,
key-in-owners and hash-equality in that fixed order, case-insensitively
where strings are compared; the first failing check produces its
dedicated error and no later check runs, and signing is permitted exactly
when all four checks pass. -/
theorem verify_prepare_response_correct (keccak : Bytes → Bytes) (chain_id : Int)
    (response : PrepareResponse) (agent_key_address : String) :
    (response.unsigned_user_op.factory = none →
      verify_prepare_response keccak chain_id response agent_key_address =
        .error .notADeployment) ∧
    (response.unsigned_user_op.factory ≠ none →
      ¬ sender_matches response.unsigned_user_op response.agent_address →
      verify_prepare_response keccak chain_id response agent_key_address =
        .error .senderMismatch) ∧
    (response.unsigned_user_op.factory ≠ none →
      sender_matches response.unsigned_user_op response.agent_address →
      ¬ key_in_owners agent_key_address response.owners →
      verify_prepare_response keccak chain_id response agent_key_address =
        .error .keyNotAuthorized) ∧
    (response.unsigned_user_op.factory ≠ none →
      sender_matches response.unsigned_user_op response.agent_address →
      key_in_owners agent_key_address response.owners →
      ∀ h, compute_user_op_hash keccak chain_id response.unsigned_user_op = .ok h →
        str_lower h ≠ str_lower response.user_op_hash →
        verify_prepare_response keccak chain_id response agent_key_address =
          .error .hashMismatch) ∧
    (verify_prepare_response keccak chain_id response agent_key_address = .ok () ↔
      response.unsigned_user_op.factory ≠ none ∧
      sender_matches response.unsigned_user_op response.agent_address ∧
      key_in_owners agent_key_address response.owners ∧
      hash_matches keccak chain_id response.unsigned_user_op response.user_op_hash) :=
  ⟨verify_err_notADeployment keccak chain_id response agent_key_address,
   verify_err_senderMismatch keccak chain_id response agent_key_address,
   verify_err_keyNotAuthorized keccak chain_id response agent_key_address,
   verify_err_hashMismatch keccak chain_id response agent_key_address,
   verify_ok_iff keccak chain_id response agent_key_address⟩

/-- Witness for C2: the deployment check fires on a non-deployment, and a
fully consistent concrete response is accepted. -/
theorem verify_prepare_response_correct_witness :
    verify_prepare_response keccakW 84532 badPrepareResponseW "0xkey" =
      .error .notADeployment ∧
    verify_prepare_response keccakW 84532 prepareResponseW agentKeyW = .ok () :=
  ⟨(verify_prepare_response_correct keccakW 84532 badPrepareResponseW "0xkey").1 rfl,
   (verify_prepare_response_correct keccakW 84532 prepareResponseW agentKeyW).2.2.2.2.mpr
     ⟨by decide,
      ⟨"0x1111111111111111111111111111111111111111", rfl, by decide, rfl⟩,
      (by decide : str_lower agentKeyW ∈ List.map str_lower prepareResponseW.owners),
      zeroHashW, rfl, rfl⟩⟩

/-! ### Transport claims -/

/-- C7: a 402 whose v1 body (resp. v2 header) fails to parse is passed
through with identical status, headers and body, and the Authorization
Port is never contacted. -/
theorem transport_malformed_passthrough (cfg : TransportCfg) (r : Response)
    (rest : List Response) (req : Request)
    (h402 : r.status = 402) (hnr : req.is_retry = false) :
    (get_v2_header r = none → cfg.parse_v1 r.body = none →
      handle_async_request cfg (r :: rest) req =
        some { response := { status := 402, headers := r.headers, body := r.body }
               sent_requests := [req]
               payment_required_calls := []
               status_reports := [] }) ∧
    (∀ hv e, get_v2_header r = some hv → cfg.parse_v2 hv = .error e →
      handle_async_request cfg (r :: rest) req =
        some { response := { status := 402, headers := r.headers, body := r.body }
               sent_requests := [req]
               payment_required_calls := []
               status_reports := [] }) := by
  constructor
  · intro hhdr hp
    simp [handle_async_request, h402, hnr, hhdr, handle_v1, hp, passthrough_402]
  · intro hv e hhdr hp
    simp [handle_async_request, h402, hnr, hhdr, handle_v2, hp, passthrough_402]

/-- Witness for C7 at a concrete 402 whose body and v2 header are both
unparseable. -/
theorem transport_malformed_passthrough_witness :
    handle_async_request (mkCfg (some sampleAuthorization) none (.error (.unknownChainId "99999")))
        [resp402W] sampleRequest =
      some { response := { status := 402, headers := resp402W.headers, body := resp402W.body }
             sent_requests := [sampleRequest]
             payment_required_calls := []
             status_reports := [] } :=
  (transport_malformed_passthrough
    (mkCfg (some sampleAuthorization) none (.error (.unknownChainId "99999")))
    resp402W [] sampleRequest rfl rfl).1 rfl rfl

/-- C8: when the Authorization Port declines, exactly one underlying
request is issued, the original 402 is returned unchanged, and `onStatus`
is never invoked. -/
theorem transport_decline_no_retry (cfg : TransportCfg) (r : Response)
    (rest : List Response) (req : Request)
    (h402 : r.status = 402) (hnr : req.is_retry = false) :
    (∀ env, get_v2_header r = none →
      cfg.parse_v1 r.body = some env →
      cfg.authorize env { method := "http", resource := req.url } = none →
      handle_async_request cfg (r :: rest) req =
        some { response := { status := 402, headers := r.headers, body := r.body }
               sent_requests := [req]
               payment_required_calls := [(env, { method := "http", resource := req.url })]
               status_reports := [] }) ∧
    (∀ hv env v2ctx, get_v2_header r = some hv →
      cfg.parse_v2 hv = .ok (env, v2ctx) →
      cfg.authorize env { method := "http", resource := req.url } = none →
      handle_async_request cfg (r :: rest) req =
        some { response := { status := 402, headers := r.headers, body := r.body }
               sent_requests := [req]
               payment_required_calls := [(env, { method := "http", resource := req.url })]
               status_reports := [] }) := by
  constructor
  · intro env hhdr hp ha
    simp [handle_async_request, h402, hnr, hhdr, handle_v1, hp, ha, passthrough_402]
  · intro hv env v2ctx hhdr hp ha
    simp [handle_async_request, h402, hnr, hhdr, handle_v2, hp, ha, passthrough_402]

/-- Witness for C8 at a declining treasurer over a concrete v1 402. -/
theorem transport_decline_no_retry_witness :
    handle_async_request (mkCfg none (some sampleEnvelope) (.error (.unknownChainId "0")))
        [resp402W] sampleRequest =
      some { response := { status := 402, headers := resp402W.headers, body := resp402W.body }
             sent_requests := [sampleRequest]
             payment_required_calls :=
               [(sampleEnvelope, { method := "http", resource := sampleRequest.url })]
             status_reports := [] } :=
  (transport_decline_no_retry
    (mkCfg none (some sampleEnvelope) (.error (.unknownChainId "0")))
    resp402W [] sampleRequest rfl rfl).1 sampleEnvelope rfl rfl rfl

theorem retry_and_report_len (request : Request) (header_name header_value : String)
    (authorization : X402Authorization) (env : X402PaymentRequiredResponse)
    (ctx : RequestContext) (script : List Response) (result : TransportResult)
    (h : retry_and_report request header_name header_value authorization env ctx script =
      some result) :
    result.sent_requests.length ≤ 2 := by
  unfold retry_and_report at h
  split at h
  · cases h
  · injection h with h
    subst h
    simp

theorem handle_v1_len (cfg : TransportCfg) (request : Request) (response : Response)
    (body : String) (script : List Response) (result : TransportResult)
    (h : handle_v1 cfg request response body script = some result) :
    result.sent_requests.length ≤ 2 := by
  unfold handle_v1 at h
  split at h
  · injection h with h; subst h; simp
  · split at h
    · injection h with h; subst h; simp
    · exact retry_and_report_len _ _ _ _ _ _ _ _ h

theorem handle_v2_len (cfg : TransportCfg) (request : Request) (response : Response)
    (body header_value : String) (script : List Response) (result : TransportResult)
    (h : handle_v2 cfg request response body header_value script = some result) :
    result.sent_requests.length ≤ 2 := by
  unfold handle_v2 at h
  split at h
  · injection h with h; subst h; simp
  · split at h
    · injection h with h; subst h; simp
    · exact retry_and_report_len _ _ _ _ _ _ _ _ h

theorem handle_async_request_len (cfg : TransportCfg) (script : List Response)
    (request : Request) (result : TransportResult)
    (h : handle_async_request cfg script request = some result) :
    result.sent_requests.length ≤ 2 := by
  unfold handle_async_request at h
  split at h
  · cases h
  · split at h
    · injection h with h; subst h; simp
    · split at h
      · injection h with h; subst h; simp
      · split at h
        · exact handle_v2_len _ _ _ _ _ _ _ h
        · exact handle_v1_len _ _ _ _ _ _ h

/-- C3: a request already flagged as a retry whose response is again 402
is returned as-is with no authorization attempt; every logical call sends
at most 2 underlying requests; and a 402-then-402 run sends exactly 2
requests and ends with the second 402. -/
theorem transport_at_most_one_retry :
    (∀ (cfg : TransportCfg) (r : Response) (rest : List Response) (req : Request),
      r.status = 402 → req.is_retry = true →
      handle_async_request cfg (r :: rest) req =
        some { response := r, sent_requests := [req],
               payment_required_calls := [], status_reports := [] }) ∧
    (∀ (cfg : TransportCfg) (script : List Response) (req : Request)
        (result : TransportResult),
      handle_async_request cfg script req = some result →
      result.sent_requests.length ≤ 2) ∧
    (∀ (cfg : TransportCfg) (r1 r2 : Response) (rest : List Response) (req : Request)
        (env : X402PaymentRequiredResponse) (auth : X402Authorization),
      r1.status = 402 → r2.status = 402 → req.is_retry = false →
      get_v2_header r1 = none →
      cfg.parse_v1 r1.body = some env →
      cfg.authorize env { method := "http", resource := req.url } = some auth →
      handle_async_request cfg (r1 :: r2 :: rest) req =
        some { response := r2
               sent_requests := [req, build_retry_request req "x-payment"
                 (cfg.encode_v1_payment_header auth.payment)]
               payment_required_calls := [(env, { method := "http", resource := req.url })]
               status_reports := [{ status := .rejected, authorization := auth,
                                    context := { method := "http", resource := req.url } }] }) := by
  refine ⟨?_, ?_, ?_⟩
  · intro cfg r rest req h402 hretry
    simp [handle_async_request, h402, hretry]
  · intro cfg script req result h
    exact handle_async_request_len cfg script req result h
  · intro cfg r1 r2 rest req env auth h1 h2 hnr hhdr hp ha
    simp [handle_async_request, h1, hnr, hhdr, handle_v1, hp, ha, retry_and_report,
      classify_retry_response, h2]

/-- Witness for C3: the flagged-retry guard on a concrete 402, the bound
at a concrete run, and a concrete 402-then-402 run. -/
theorem transport_at_most_one_retry_witness :
    handle_async_request (mkCfg (some sampleAuthorization) (some sampleEnvelope)
        (.error (.unknownChainId "0"))) [resp402W] retryReqW =
      some { response := resp402W, sent_requests := [retryReqW],
             payment_required_calls := [], status_reports := [] } ∧
    handle_async_request (mkCfg (some sampleAuthorization) (some sampleEnvelope)
        (.error (.unknownChainId "0"))) [resp402W, resp402W] sampleRequest =
      some { response := resp402W
             sent_requests := [sampleRequest, build_retry_request sampleRequest "x-payment"
               sampleAuthorization.payment]
             payment_required_calls :=
               [(sampleEnvelope, { method := "http", resource := sampleRequest.url })]
             status_reports := [{ status := .rejected, authorization := sampleAuthorization,
                                  context := { method := "http", resource := sampleRequest.url } }] } ∧
    [sampleRequest, build_retry_request sampleRequest "x-payment"
      sampleAuthorization.payment].length ≤ 2 :=
  ⟨transport_at_most_one_retry.1 (mkCfg (some sampleAuthorization) (some sampleEnvelope)
      (.error (.unknownChainId "0"))) resp402W [] retryReqW rfl rfl,
   transport_at_most_one_retry.2.2 (mkCfg (some sampleAuthorization) (some sampleEnvelope)
      (.error (.unknownChainId "0"))) resp402W resp402W [] sampleRequest sampleEnvelope
      sampleAuthorization rfl rfl rfl rfl rfl rfl,
   transport_at_most_one_retry.2.1 (mkCfg (some sampleAuthorization) (some sampleEnvelope)
      (.error (.unknownChainId "0"))) [resp402W, resp402W] sampleRequest _
      (transport_at_most_one_retry.2.2 (mkCfg (some sampleAuthorization) (some sampleEnvelope)
        (.error (.unknownChainId "0"))) resp402W resp402W [] sampleRequest sampleEnvelope
        sampleAuthorization rfl rfl rfl rfl rfl rfl)⟩

/-- C4: the retried response is classified rejected when it is again a
402, completed when (not 402 and) it succeeded or carries a
payment-response / x-payment-response header even under a non-2xx status,
and failed otherwise; a 402-then-200 run reports completed to the port. -/
theorem transport_status_reporting :
    (∀ resp : Response,
      (classify_retry_response resp = .rejected ↔ resp.status = 402) ∧
      (classify_retry_response resp = .completed ↔
        resp.status ≠ 402 ∧ (resp.status = 200 ∨ has_payment_response resp = true)) ∧
      (classify_retry_response resp = .failed ↔
        resp.status ≠ 402 ∧ resp.status ≠ 200 ∧ has_payment_response resp = false)) ∧
    (∀ (cfg : TransportCfg) (r1 r2 : Response) (rest : List Response) (req : Request)
        (env : X402PaymentRequiredResponse) (auth : X402Authorization),
      r1.status = 402 → r2.status = 200 → req.is_retry = false →
      get_v2_header r1 = none →
      cfg.parse_v1 r1.body = some env →
      cfg.authorize env { method := "http", resource := req.url } = some auth →
      (handle_async_request cfg (r1 :: r2 :: rest) req).map (·.status_reports) =
        some [{ status := .completed, authorization := auth,
                context := { method := "http", resource := req.url } }]) := by
  constructor
  · intro resp
    by_cases h1 : resp.status = 402 <;> by_cases h2 : resp.status = 200 <;>
      by_cases h3 : has_payment_response resp = true <;>
      simp_all [classify_retry_response]
  · intro cfg r1 r2 rest req env auth h1 h2 hnr hhdr hp ha
    simp [handle_async_request, h1, hnr, hhdr, handle_v1, hp, ha, retry_and_report,
      classify_retry_response, h2]

/-- Witness for C4: classification of a concrete 402 / 200 / 500 response
and a concrete 402-then-200 run reporting completed. -/
theorem transport_status_reporting_witness :
    (classify_retry_response resp402W = .rejected ↔ resp402W.status = 402) ∧
    (handle_async_request (mkCfg (some sampleAuthorization) (some sampleEnvelope)
        (.error (.unknownChainId "0"))) [resp402W, resp200W] sampleRequest).map
        (·.status_reports) =
      some [{ status := .completed, authorization := sampleAuthorization,
              context := { method := "http", resource := sampleRequest.url } }] :=
  ⟨(transport_status_reporting.1 resp402W).1,
   transport_status_reporting.2 (mkCfg (some sampleAuthorization) (some sampleEnvelope)
      (.error (.unknownChainId "0"))) resp402W resp200W [] sampleRequest sampleEnvelope
      sampleAuthorization rfl rfl rfl rfl rfl rfl⟩

theorem set_header_of_absent (headers : List (String × String)) (name value : String)
    (h : get_header headers name = none) :
    set_header headers name value = headers ++ [(name, value)] := by
  induction headers with
  | nil => rfl
  | cons hd tl ih =>
    by_cases hk : str_lower hd.1 = str_lower name
    · exfalso
      have hfind : List.find? (fun p => decide (str_lower p.1 = str_lower name)) (hd :: tl) =
          some hd := List.find?_cons_of_pos _ (by simpa using hk)
      rw [get_header, hfind] at h
      cases h
    · have htl : get_header tl name = none := by
        have hfind : List.find? (fun p => decide (str_lower p.1 = str_lower name)) (hd :: tl) =
            List.find? (fun p => decide (str_lower p.1 = str_lower name)) tl :=
          List.find?_cons_of_neg _ (by simpa using hk)
        rw [get_header, hfind] at h
        exact h
      cases hd with
      | mk k v =>
        rw [set_header, if_neg (by simpa using hk), ih htl]
        simp

/-- C9: the single retry of an authorized payment keeps the original
method, URL, body and (given no pre-existing payment header) all existing
headers, adding only the version-appropriate payment header and setting
the internal retry flag; the v1 flow adds `x-payment`, the v2 flow
`payment-signature`. -/
theorem transport_retry_request_frame :
    (∀ (original : Request) (name value : String),
      get_header original.headers name = none →
      (build_retry_request original name value).method = original.method ∧
      (build_retry_request original name value).url = original.url ∧
      (build_retry_request original name value).content = original.content ∧
      (build_retry_request original name value).headers = original.headers ++ [(name, value)] ∧
      (build_retry_request original name value).is_retry = true) ∧
    (∀ (cfg : TransportCfg) (r1 r2 : Response) (rest : List Response) (req : Request)
        (env : X402PaymentRequiredResponse) (auth : X402Authorization),
      r1.status = 402 → req.is_retry = false →
      get_v2_header r1 = none →
      cfg.parse_v1 r1.body = some env →
      cfg.authorize env { method := "http", resource := req.url } = some auth →
      (handle_async_request cfg (r1 :: r2 :: rest) req).map (·.sent_requests) =
        some [req, build_retry_request req "x-payment"
          (cfg.encode_v1_payment_header auth.payment)]) ∧
    (∀ (cfg : TransportCfg) (r1 r2 : Response) (rest : List Response) (req : Request)
        (hv : String) (env : X402PaymentRequiredResponse) (v2ctx : V2PaymentContext)
        (auth : X402Authorization),
      r1.status = 402 → req.is_retry = false →
      get_v2_header r1 = some hv →
      cfg.parse_v2 hv = .ok (env, v2ctx) →
      cfg.authorize env { method := "http", resource := req.url } = some auth →
      (handle_async_request cfg (r1 :: r2 :: rest) req).map (·.sent_requests) =
        some [req, build_retry_request req "payment-signature"
          (cfg.encode_v2_payment_signature auth.payment v2ctx auth.selected_requirement)]) := by
  refine ⟨?_, ?_, ?_⟩
  · intro original name value h
    exact ⟨rfl, rfl, rfl, by simp [build_retry_request, set_header_of_absent _ _ value h], rfl⟩
  · intro cfg r1 r2 rest req env auth h1 hnr hhdr hp ha
    simp [handle_async_request, h1, hnr, hhdr, handle_v1, hp, ha, retry_and_report]
  · intro cfg r1 r2 rest req hv env v2ctx auth h1 hnr hhdr hp ha
    simp [handle_async_request, h1, hnr, hhdr, handle_v2, hp, ha, retry_and_report]

/-- Witness for C9 at a concrete request without a pre-existing payment
header, plus concrete v1 and v2 authorized runs. -/
theorem transport_retry_request_frame_witness :
    (build_retry_request sampleRequest "x-payment" "hdr").headers =
      sampleRequest.headers ++ [("x-payment", "hdr")] ∧
    (handle_async_request (mkCfg (some sampleAuthorization) (some sampleEnvelope)
        (.error (.unknownChainId "0"))) [resp402W, resp200W] sampleRequest).map
        (·.sent_requests) =
      some [sampleRequest,
        build_retry_request sampleRequest "x-payment" sampleAuthorization.payment] ∧
    (handle_async_request (mkCfg (some sampleAuthorization) none
        (.ok (sampleEnvelope, sampleV2Context))) [resp402v2W, resp200W] sampleRequest).map
        (·.sent_requests) =
      some [sampleRequest,
        build_retry_request sampleRequest "payment-signature" sampleAuthorization.payment] :=
  ⟨((transport_retry_request_frame.1 sampleRequest "x-payment" "hdr" rfl).2.2.2.1),
   transport_retry_request_frame.2.1 (mkCfg (some sampleAuthorization) (some sampleEnvelope)
      (.error (.unknownChainId "0"))) resp402W resp200W [] sampleRequest sampleEnvelope
      sampleAuthorization rfl rfl rfl rfl rfl,
   transport_retry_request_frame.2.2 (mkCfg (some sampleAuthorization) none
      (.ok (sampleEnvelope, sampleV2Context))) resp402v2W resp200W [] sampleRequest "aGRy"
      sampleEnvelope sampleV2Context sampleAuthorization rfl rfl rfl rfl rfl⟩

/-! ### Adapter lemmas (claims C5, C6, C10) -/

theorem except_bind_err {α β ε : Type} (e : ε) (f : α → Except ε β) :
    (Except.error e : Except ε α) >>= f = .error e := rfl

theorem convert_v2_accepts_ok (ntid : List (String × String))
    (gtn gtv : String → String → String) (res : V2Resource) :
    ∀ (l : List V2Requirement) (l' : List PaymentRequirements),
      convert_v2_accepts ntid gtn gtv res l = .ok l' →
      l'.length = l.length ∧
      ∀ i (hi : i < l.length) (hi' : i < l'.length),
        convert_v2_requirement ntid gtn gtv res (l.get ⟨i, hi⟩) = .ok (l'.get ⟨i, hi'⟩) := by
  intro l
  induction l with
  | nil =>
    intro l' h
    unfold convert_v2_accepts at h
    injection h with h
    subst h
    exact ⟨rfl, fun i hi _ => absurd hi (Nat.not_lt_zero i)⟩
  | cons r rest ih =>
    intro l' h
    unfold convert_v2_accepts at h
    cases hc : convert_v2_requirement ntid gtn gtv res r with
    | error e => rw [hc, except_bind_err] at h; cases h
    | ok v1 =>
      rw [hc, except_bind_ok] at h
      cases ht : convert_v2_accepts ntid gtn gtv res rest with
      | error e => rw [ht, except_bind_err] at h; cases h
      | ok tl =>
        rw [ht, except_bind_ok, except_map_pure] at h
        injection h with h
        subst h
        obtain ⟨hlen, hcorr⟩ := ih tl ht
        refine ⟨by simp [hlen], ?_⟩
        intro i hi hi'
        cases i with
        | zero => simpa using hc
        | succ j =>
          have hj : j < rest.length := by simpa using hi
          have hj' : j < tl.length := by simpa using hi'
          simpa using hcorr j hj hj'

theorem dict_get_of_mem (ntid : List (String × String))
    (hnd : (ntid.map Prod.fst).Nodup) (k c : String) (hmem : (k, c) ∈ ntid) :
    dict_get ntid k = some c := by
  induction ntid with
  | nil => cases hmem
  | cons hd tl ih =>
    obtain ⟨k', v'⟩ := hd
    rw [List.map_cons, List.nodup_cons] at hnd
    rcases List.mem_cons.mp hmem with heq | htl
    · injection heq with h1 h2
      subst h1
      subst h2
      simp [dict_get, List.find?_cons_of_pos]
    · have hk : k' ≠ k := by
        intro he
        subst he
        exact hnd.1 (List.mem_map.mpr ⟨(k', c), htl, rfl⟩)
      rw [dict_get, List.find?_cons_of_neg _ (by simpa using hk)]
      exact ih hnd.2 htl

theorem inv_map_mem (ntid : List (String × String)) (c k : String)
    (h : chain_id_to_network_map ntid c = some k) : (k, c) ∈ ntid := by
  unfold chain_id_to_network_map at h
  cases hf : List.find? (fun p => decide (p.2 = c)) ntid.reverse with
  | none => rw [hf] at h; cases h
  | some q =>
    rw [hf] at h
    injection h with h
    have hq : q.2 = c := by simpa using List.find?_some hf
    have hmem : q ∈ ntid.reverse := List.mem_of_find?_eq_some hf
    rw [List.mem_reverse] at hmem
    have hqk : q = (k, c) := Prod.ext h hq
    rwa [hqk] at hmem

theorem network_roundtrip (ntid : List (String × String))
    (hnd : (ntid.map Prod.fst).Nodup) (c k : String)
    (hinv : chain_id_to_network_map ntid c = some k) :
    dict_get ntid k = some c :=
  dict_get_of_mem ntid hnd k c (inv_map_mem ntid c k hinv)

theorem convert_req_fields (ntid : List (String × String))
    (gtn gtv : String → String → String) (res : V2Resource)
    (req : V2Requirement) (v1req : PaymentRequirements)
    (h : convert_v2_requirement ntid gtn gtv res req = .ok v1req) :
    chain_id_to_network_map ntid (parse_caip2_chain_id req.network) = some v1req.network ∧
    v1req.scheme = req.scheme ∧
    v1req.max_amount_required = req.amount ∧
    v1req.pay_to = req.payTo ∧
    v1req.asset = req.asset ∧
    v1req.max_timeout_seconds = req.maxTimeoutSeconds.getD DEFAULT_MAX_TIMEOUT_SECONDS := by
  simp only [convert_v2_requirement, chain_id_to_v1_network] at h
  split at h
  · rw [except_bind_err] at h
    cases h
  · rename_i name hinv
    rw [except_bind_ok, except_map_pure] at h
    injection h with h
    subst h
    exact ⟨hinv, rfl, rfl, rfl, rfl, rfl⟩

theorem v2_decode_accepts (ntid : List (String × String))
    (gtn gtv : String → String → String) (env : V2Envelope)
    (resp : X402PaymentRequiredResponse) (ctx : V2PaymentContext)
    (hdec : v2_to_v1_payment_required ntid gtn gtv env = .ok (resp, ctx)) :
    convert_v2_accepts ntid gtn gtv env.resource env.accepts = .ok resp.accepts := by
  simp only [v2_to_v1_payment_required] at hdec
  cases hca : convert_v2_accepts ntid gtn gtv env.resource env.accepts with
  | error e => rw [hca, except_bind_err] at hdec; cases hdec
  | ok l =>
    rw [hca, except_bind_ok, except_map_pure] at hdec
    injection hdec with hdec
    rw [Prod.mk.injEq] at hdec
    obtain ⟨h1, _⟩ := hdec
    rw [← h1]

theorem convert_v2_accepts_err (ntid : List (String × String))
    (gtn gtv : String → String → String) (res : V2Resource) :
    ∀ (l : List V2Requirement) (req : V2Requirement), req ∈ l →
      chain_id_to_network_map ntid (parse_caip2_chain_id req.network) = none →
      ∃ c, convert_v2_accepts ntid gtn gtv res l = .error (.unknownChainId c) := by
  intro l
  induction l with
  | nil => intro req h; cases h
  | cons r rest ih =>
    intro req hmem hc
    unfold convert_v2_accepts
    cases hcr : convert_v2_requirement ntid gtn gtv res r with
    | error e =>
      obtain ⟨c⟩ := e
      exact ⟨c, by rw [except_bind_err]⟩
    | ok v1 =>
      rcases List.mem_cons.mp hmem with heq | htl
      · exfalso
        subst heq
        simp only [convert_v2_requirement, chain_id_to_v1_network, hc] at hcr
        rw [except_bind_err] at hcr
        cases hcr
      · obtain ⟨c, hch⟩ := ih req htl hc
        exact ⟨c, by rw [except_bind_ok, hch, except_bind_err]⟩

/-- C5: decoding a valid v2 envelope and re-encoding the selected
requirement preserves the scheme, the chain id (re-derived as
`eip155:<chainId>` from the internal network name), the asset, the payee
and the amount of the original envelope. -/
theorem v2_roundtrip_preserves (ntid : List (String × String))
    (hnd : (ntid.map Prod.fst).Nodup) (gtn gtv : String → String → String)
    (env : V2Envelope) (resp : X402PaymentRequiredResponse) (ctx : V2PaymentContext)
    (hdec : v2_to_v1_payment_required ntid gtn gtv env = .ok (resp, ctx))
    (i : Nat) (hi : i < env.accepts.length) (hi' : i < resp.accepts.length) :
    ∃ acc, v1_requirement_to_v2_accepted ntid (resp.accepts.get ⟨i, hi'⟩) = .ok acc ∧
      acc.scheme = (env.accepts.get ⟨i, hi⟩).scheme ∧
      acc.network = "eip155:" ++ parse_caip2_chain_id (env.accepts.get ⟨i, hi⟩).network ∧
      acc.asset = (env.accepts.get ⟨i, hi⟩).asset ∧
      acc.payTo = (env.accepts.get ⟨i, hi⟩).payTo ∧
      acc.amount = (env.accepts.get ⟨i, hi⟩).amount := by
  have haccepts := v2_decode_accepts ntid gtn gtv env resp ctx hdec
  obtain ⟨hlen, hcorr⟩ :=
    convert_v2_accepts_ok ntid gtn gtv env.resource env.accepts resp.accepts haccepts
  obtain ⟨hinv, hscheme, hamount, hpay, hasset, _⟩ :=
    convert_req_fields ntid gtn gtv env.resource (env.accepts.get ⟨i, hi⟩)
      (resp.accepts.get ⟨i, hi'⟩) (hcorr i hi hi')
  have hdict := network_roundtrip ntid hnd _ _ hinv
  refine ⟨{ scheme := (resp.accepts.get ⟨i, hi'⟩).scheme
            network := "eip155:" ++ parse_caip2_chain_id (env.accepts.get ⟨i, hi⟩).network
            amount := (resp.accepts.get ⟨i, hi'⟩).max_amount_required
            asset := (resp.accepts.get ⟨i, hi'⟩).asset
            payTo := (resp.accepts.get ⟨i, hi'⟩).pay_to
            maxTimeoutSeconds := (resp.accepts.get ⟨i, hi'⟩).max_timeout_seconds },
         ?_, hscheme, rfl, hasset, hpay, hamount⟩
  simp only [v1_requirement_to_v2_accepted]
  rw [hdict]

/-- Witness for C5 at a concrete v2 envelope over chain id 84532 and the
concrete registry. -/
theorem v2_roundtrip_preserves_witness :
    ∃ acc, v1_requirement_to_v2_accepted NETWORK_TO_ID goodV1RequirementW = .ok acc ∧
      acc.scheme = "exact" ∧
      acc.network = "eip155:" ++ parse_caip2_chain_id "eip155:84532" ∧
      acc.asset = "0x036CbD53842c5426634e7929541eC2318f3dCF7e" ∧
      acc.payTo = "0x1234567890123456789012345678901234567890" ∧
      acc.amount = "1000000" :=
  v2_roundtrip_preserves NETWORK_TO_ID (by decide) sampleTokenName sampleTokenVersion
    goodV2Envelope goodDecodedW goodCtxW rfl 0 (by decide) (by decide)

/-- C6 as amended: a chain id absent from the registry makes decoding
fail with `UnknownChainId`, but the HTTP transport catches that error
like any parse failure and passes the original 402 through unchanged
without contacting the Authorization Port — the error is not surfaced to
the transport's caller. -/
theorem v2_unknown_chain_id_behaviour :
    (∀ (ntid : List (String × String)) (gtn gtv : String → String → String)
        (env : V2Envelope) (req : V2Requirement), req ∈ env.accepts →
      chain_id_to_network_map ntid (parse_caip2_chain_id req.network) = none →
      ∃ c, v2_to_v1_payment_required ntid gtn gtv env = .error (.unknownChainId c)) ∧
    (∀ (cfg : TransportCfg) (r : Response) (rest : List Response) (req : Request)
        (hv : String) (e : DecodeErr),
      r.status = 402 → req.is_retry = false →
      get_v2_header r = some hv → cfg.parse_v2 hv = .error e →
      handle_async_request cfg (r :: rest) req =
        some { response := { status := 402, headers := r.headers, body := r.body }
               sent_requests := [req]
               payment_required_calls := []
               status_reports := [] }) := by
  constructor
  · intro ntid gtn gtv env req hmem hc
    obtain ⟨c, hch⟩ := convert_v2_accepts_err ntid gtn gtv env.resource env.accepts req hmem hc
    exact ⟨c, by simp only [v2_to_v1_payment_required]; rw [hch, except_bind_err]⟩
  · intro cfg r rest req hv e h402 hnr hhdr hp
    simp [handle_async_request, h402, hnr, hhdr, handle_v2, hp, passthrough_402]

/-- Witness for the amended C6 at the concrete registry, a concrete
envelope naming chain id 99999 and a concrete 402. -/
theorem v2_unknown_chain_id_behaviour_witness :
    (∃ c, v2_to_v1_payment_required NETWORK_TO_ID sampleTokenName sampleTokenVersion
        badV2Envelope = .error (.unknownChainId c)) ∧
    handle_async_request (mkCfg (some sampleAuthorization) none
        (.error (.unknownChainId "99999"))) [resp402v2W] sampleRequest =
      some { response := { status := 402, headers := resp402v2W.headers, body := resp402v2W.body }
             sent_requests := [sampleRequest]
             payment_required_calls := []
             status_reports := [] } :=
  ⟨v2_unknown_chain_id_behaviour.1 NETWORK_TO_ID sampleTokenName sampleTokenVersion
      badV2Envelope { scheme := "exact", network := "eip155:99999", amount := "1000",
                      asset := "0xUnknown", payTo := "0xRecipient" }
      (by decide) rfl,
   v2_unknown_chain_id_behaviour.2 (mkCfg (some sampleAuthorization) none
      (.error (.unknownChainId "99999"))) resp402v2W [] sampleRequest "aGRy"
      (.unknownChainId "99999") rfl rfl rfl rfl⟩

/-- Counterexample to C6 as stated: on an envelope whose requirement
names chain id 99999, decoding does fail with `UnknownChainId`, yet a
transport whose v2 parser raises exactly that error returns the original
402 as a passthrough with the Authorization Port untouched — the error is
degraded to a passthrough of the 402 rather than surfaced to the
caller. -/
theorem v2_unknown_chain_id_counterexample :
    v2_to_v1_payment_required NETWORK_TO_ID sampleTokenName sampleTokenVersion badV2Envelope =
      .error (.unknownChainId "99999") ∧
    handle_async_request (mkCfg (some sampleAuthorization) none
        (v2_to_v1_payment_required NETWORK_TO_ID sampleTokenName sampleTokenVersion
          badV2Envelope)) [resp402v2W] sampleRequest =
      some { response := { status := 402, headers := resp402v2W.headers, body := resp402v2W.body }
             sent_requests := [sampleRequest]
             payment_required_calls := []
             status_reports := [] } := by
  constructor <;> rfl

/-- C10: a v2 requirement omitting `maxTimeoutSeconds` decodes with the
internal default of 300 seconds, and a server-supplied value passes
through unchanged. -/
theorem v2_decode_timeout_default (ntid : List (String × String))
    (gtn gtv : String → String → String) (env : V2Envelope)
    (resp : X402PaymentRequiredResponse) (ctx : V2PaymentContext)
    (hdec : v2_to_v1_payment_required ntid gtn gtv env = .ok (resp, ctx))
    (i : Nat) (hi : i < env.accepts.length) (hi' : i < resp.accepts.length) :
    ((env.accepts.get ⟨i, hi⟩).maxTimeoutSeconds = none →
      (resp.accepts.get ⟨i, hi'⟩).max_timeout_seconds = DEFAULT_MAX_TIMEOUT_SECONDS) ∧
    (∀ t, (env.accepts.get ⟨i, hi⟩).maxTimeoutSeconds = some t →
      (resp.accepts.get ⟨i, hi'⟩).max_timeout_seconds = t) ∧
    DEFAULT_MAX_TIMEOUT_SECONDS = 300 := by
  have haccepts := v2_decode_accepts ntid gtn gtv env resp ctx hdec
  obtain ⟨hlen, hcorr⟩ :=
    convert_v2_accepts_ok ntid gtn gtv env.resource env.accepts resp.accepts haccepts
  obtain ⟨_, _, _, _, _, htime⟩ :=
    convert_req_fields ntid gtn gtv env.resource (env.accepts.get ⟨i, hi⟩)
      (resp.accepts.get ⟨i, hi'⟩) (hcorr i hi hi')
  refine ⟨?_, ?_, rfl⟩
  · intro h
    rw [htime, h]
    rfl
  · intro t h
    rw [htime, h]
    rfl

/-- Witness for C10: the concrete envelope omits the field and decodes to
timeout 300. -/
theorem v2_decode_timeout_default_witness :
    goodV1RequirementW.max_timeout_seconds = DEFAULT_MAX_TIMEOUT_SECONDS ∧
    DEFAULT_MAX_TIMEOUT_SECONDS = 300 :=
  ⟨(v2_decode_timeout_default NETWORK_TO_ID sampleTokenName sampleTokenVersion
      goodV2Envelope goodDecodedW goodCtxW rfl 0 (by decide) (by decide)).1 rfl,
   (v2_decode_timeout_default NETWORK_TO_ID sampleTokenName sampleTokenVersion
      goodV2Envelope goodDecodedW goodCtxW rfl 0 (by decide) (by decide)).2.2⟩

end Ampersend
